import Mathlib

/-!
# Verification of the climate-leocap declarative core

A shallow embedding of the repository's declarative/analytic content:

* `SEP.py` — species and interaction definitions for the SEP 5 scenario,
  together with the high-sustainability variant derivation (which performs a
  shallow `dict.copy()` and then mutates the shared `Species` objects in
  place);
* `reformat_density.py` — the decimal-year → `"YYYY-MM"` period-label
  computation and the nested period → altitude → density table build;
* `report_plots.py` — per-species output extraction from the flattened state
  matrix, category aggregation, and the time-dependent density grid with its
  fallback behavior.

Python dictionaries are modelled as association lists with insert-or-replace
semantics (`dinsert`) and first-match lookup (`dget`); Python object
references are modelled with an explicit heap (a list of records addressed by
position) where mutation semantics matter.  Machine floats that only flow
through containers unchanged are modelled as rationals.
-/

namespace LeoCap

/-- Python `dict` assignment `d[k] = v`: replace the binding of `k` in place
if present, otherwise append the new binding at the end. -/
def dinsert {α : Type} (k : String) (v : α) : List (String × α) → List (String × α)
  | [] => [(k, v)]
  | (k2, v2) :: d => if k2 = k then (k, v) :: d else (k2, v2) :: dinsert k v d

/-- Python `dict` lookup `d[k]`: first (and, given `dinsert`, only) binding of
`k`, if any. -/
def dget {α : Type} (k : String) : List (String × α) → Option α
  | [] => none
  | (k2, v2) :: d => if k2 = k then some v2 else dget k d

/-!
## SEP.py — species schema

The altitude-threshold property functions in `SEP.py` are Python conditional
cascades `v1 if alt < t1 else v2 if alt < t2 else v3`: a list of
`(threshold, value)` branches evaluated low-to-high with strict `<`, followed
by a final `else` value.  They are embedded structurally as `Cascade`, so that
the presence of the default branch is a checkable property rather than being
absorbed into function totality.  A constant function `lambda alt: v` is a
cascade with no branches and default `v`.
-/

/-- A low-to-high altitude-threshold cascade with an optional final `else`
branch.  Every cascade written in `SEP.py` carries a default, which is what
claim C8 checks. -/
structure Cascade where
  branches : List (ℚ × ℚ)
  dflt : Option ℚ
  deriving DecidableEq

/-- Evaluate a cascade at an altitude: the first branch whose strict
threshold test `alt < threshold` succeeds wins, else the default (if any). -/
def Cascade.eval (c : Cascade) (alt : ℚ) : Option ℚ :=
  match c.branches.find? (fun b => decide (alt < b.1)) with
  | some b => some b.2
  | none => c.dflt

/-- The `pyssem` `Species` record as constructed in `SEP.py`.  Keyword
arguments that a given construction omits (`post_failure_activity_time`,
`explosion_probability`) are `none`.  The altitude cascades `lifetime_fn`,
`mass_fn`, `area_fn` are `Cascade`s; `launch_rate_fn` (a cascade in `t`) and
`initial_number_fn` (interval conditions in `alt`) are kept as plain
functions. -/
structure Species where
  name : String
  description : String
  is_man_made : Bool
  is_active : Bool
  is_trackable : Bool
  can_maneuver : Bool
  launch_rate_fn : ℚ → ℚ
  lifetime_fn : Cascade
  mass_fn : Cascade
  area_fn : Cascade
  initial_number_fn : ℚ → ℚ
  pmd_success_rate : ℚ
  pmd_time : ℚ
  collision_avoidance : Bool
  post_failure_activity_time : Option ℚ := none
  explosion_probability : Option ℚ := none

/-- Source: `altitude_bins = np.arange(200, 2000, 50)`. -/
def altitude_bins : List ℚ := (List.range 36).map (fun k => 200 + 50 * (k : ℚ))

def commercial_constellation : Species :=
  { name := "commercial_constellation_sats"
    description := "Commercial constellation satellites (e.g., Starlink, Kuiper)"
    is_man_made := true, is_active := true, is_trackable := true, can_maneuver := true
    launch_rate_fn := fun t => if t < 5 then 3000 else if t < 10 then 2000 else 1500
    lifetime_fn := ⟨[(600, 7)], some 8⟩
    mass_fn := ⟨[(600, 300)], some 500⟩
    area_fn := ⟨[(600, 4)], some 6⟩
    initial_number_fn := fun alt => if 500 ≤ alt ∧ alt < 600 then 6000 else 0
    pmd_success_rate := 0.98, pmd_time := 5, collision_avoidance := true
    post_failure_activity_time := some 0.5 }

def commercial_other : Species :=
  { name := "commercial_other_sats"
    description := "Non-constellation commercial satellites"
    is_man_made := true, is_active := true, is_trackable := true, can_maneuver := true
    launch_rate_fn := fun t => if t < 5 then 50 else if t < 10 then 70 else 90
    lifetime_fn := ⟨[(800, 8), (1200, 10)], some 12⟩
    mass_fn := ⟨[(800, 1000)], some 2000⟩
    area_fn := ⟨[(800, 15)], some 25⟩
    initial_number_fn := fun alt =>
      if 600 ≤ alt ∧ alt < 800 then 50 else if 800 ≤ alt ∧ alt < 1200 then 30 else 0
    pmd_success_rate := 0.95, pmd_time := 5, collision_avoidance := true
    post_failure_activity_time := some 1.0 }

def gov_civil : Species :=
  { name := "gov_civil_sats"
    description := "Government civil satellites (meteorological, Earth observation, etc.)"
    is_man_made := true, is_active := true, is_trackable := true, can_maneuver := true
    launch_rate_fn := fun _ => 10
    lifetime_fn := ⟨[(700, 7)], some 10⟩
    mass_fn := ⟨[(700, 2000)], some 3500⟩
    area_fn := ⟨[(700, 25)], some 40⟩
    initial_number_fn := fun alt =>
      if 600 ≤ alt ∧ alt < 700 then 5 else if 700 ≤ alt ∧ alt < 1000 then 15 else 0
    pmd_success_rate := 0.90, pmd_time := 5, collision_avoidance := true
    post_failure_activity_time := some 1.0 }

def military : Species :=
  { name := "military_sats"
    description := "Military satellites"
    is_man_made := true, is_active := true, is_trackable := true, can_maneuver := true
    launch_rate_fn := fun _ => 8
    lifetime_fn := ⟨[(1000, 10)], some 15⟩
    mass_fn := ⟨[(1000, 2500)], some 4000⟩
    area_fn := ⟨[(1000, 30)], some 45⟩
    initial_number_fn := fun alt => if 800 ≤ alt ∧ alt < 1200 then 10 else 0
    pmd_success_rate := 0.90, pmd_time := 5, collision_avoidance := true
    post_failure_activity_time := some 1.5 }

def small_satellites : Species :=
  { name := "small_sats"
    description := "Small satellites (CubeSats, etc.) for commercial and academic use"
    is_man_made := true, is_active := true, is_trackable := true, can_maneuver := false
    launch_rate_fn := fun t => if t < 5 then 200 else if t < 10 then 150 else 100
    lifetime_fn := ⟨[(500, 3), (700, 5)], some 7⟩
    mass_fn := ⟨[], some 10⟩
    area_fn := ⟨[], some 0.1⟩
    initial_number_fn := fun alt =>
      if 400 ≤ alt ∧ alt < 600 then 300 else if 600 ≤ alt ∧ alt < 800 then 100 else 0
    pmd_success_rate := 0.98, pmd_time := 5, collision_avoidance := false
    post_failure_activity_time := some 0.1 }

def rocket_bodies_commercial : Species :=
  { name := "rocket_bodies_commercial"
    description := "Rocket bodies and upper stages from commercial launches"
    is_man_made := true, is_active := false, is_trackable := true, can_maneuver := false
    launch_rate_fn := fun t => if t < 5 then 80 else if t < 10 then 70 else 60
    lifetime_fn := ⟨[(400, 2), (600, 10)], some 20⟩
    mass_fn := ⟨[(500, 2000)], some 3000⟩
    area_fn := ⟨[], some 30⟩
    initial_number_fn := fun alt =>
      if 200 ≤ alt ∧ alt < 300 then 30 else if 300 ≤ alt ∧ alt < 500 then 20
      else if 500 ≤ alt ∧ alt < 700 then 10 else 0
    pmd_success_rate := 0.90, pmd_time := 5, collision_avoidance := false
    explosion_probability := some 0.015 }

def rocket_bodies_gov : Species :=
  { name := "rocket_bodies_gov"
    description := "Rocket bodies and upper stages from government launches"
    is_man_made := true, is_active := false, is_trackable := true, can_maneuver := false
    launch_rate_fn := fun _ => 15
    lifetime_fn := ⟨[(400, 2), (600, 10)], some 25⟩
    mass_fn := ⟨[], some 3000⟩
    area_fn := ⟨[], some 35⟩
    initial_number_fn := fun alt =>
      if 300 ≤ alt ∧ alt < 500 then 10 else if 500 ≤ alt ∧ alt < 700 then 5 else 0
    pmd_success_rate := 0.90, pmd_time := 5, collision_avoidance := false
    explosion_probability := some 0.015 }

def inactive_commercial : Species :=
  { name := "inactive_commercial_sats"
    description := "Failed or derelict commercial satellites"
    is_man_made := true, is_active := false, is_trackable := true, can_maneuver := false
    launch_rate_fn := fun _ => 0
    lifetime_fn := ⟨[(500, 10), (800, 25)], some 100⟩
    mass_fn := ⟨[(600, 300), (800, 1000)], some 2000⟩
    area_fn := ⟨[(600, 4), (800, 15)], some 25⟩
    initial_number_fn := fun alt =>
      if 500 ≤ alt ∧ alt < 800 then 100 else if 800 ≤ alt ∧ alt < 1200 then 50 else 0
    pmd_success_rate := 0.0, pmd_time := 25, collision_avoidance := false
    explosion_probability := some 0.002 }

def inactive_government : Species :=
  { name := "inactive_government_sats"
    description := "Failed or derelict government satellites"
    is_man_made := true, is_active := false, is_trackable := true, can_maneuver := false
    launch_rate_fn := fun _ => 0
    lifetime_fn := ⟨[(700, 15), (1000, 30)], some 100⟩
    mass_fn := ⟨[(1000, 2000)], some 3500⟩
    area_fn := ⟨[(1000, 25)], some 40⟩
    initial_number_fn := fun alt =>
      if 700 ≤ alt ∧ alt < 1000 then 20 else if 1000 ≤ alt ∧ alt < 1500 then 10 else 0
    pmd_success_rate := 0.0, pmd_time := 25, collision_avoidance := false
    explosion_probability := some 0.002 }

def large_debris : Species :=
  { name := "large_debris"
    description := "Large debris objects (>10 cm)"
    is_man_made := true, is_active := false, is_trackable := true, can_maneuver := false
    launch_rate_fn := fun _ => 0
    lifetime_fn := ⟨[(500, 5), (800, 25)], some 100⟩
    mass_fn := ⟨[], some 5⟩
    area_fn := ⟨[], some 0.1⟩
    initial_number_fn := fun alt =>
      if 500 ≤ alt ∧ alt < 800 then 3000 else if 800 ≤ alt ∧ alt < 1200 then 2000
      else if 1200 ≤ alt ∧ alt < 1500 then 1000 else 0
    pmd_success_rate := 0.0, pmd_time := 25, collision_avoidance := false }

def medium_debris : Species :=
  { name := "medium_debris"
    description := "Medium debris objects (1-10 cm)"
    is_man_made := true, is_active := false, is_trackable := false, can_maneuver := false
    launch_rate_fn := fun _ => 0
    lifetime_fn := ⟨[(500, 3), (800, 15)], some 50⟩
    mass_fn := ⟨[], some 0.5⟩
    area_fn := ⟨[], some 0.01⟩
    initial_number_fn := fun alt =>
      if 500 ≤ alt ∧ alt < 800 then 20000 else if 800 ≤ alt ∧ alt < 1200 then 15000
      else if 1200 ≤ alt ∧ alt < 1500 then 5000 else 0
    pmd_success_rate := 0.0, pmd_time := 25, collision_avoidance := false }

def small_debris : Species :=
  { name := "small_debris"
    description := "Small debris objects (1mm-1cm)"
    is_man_made := true, is_active := false, is_trackable := false, can_maneuver := false
    launch_rate_fn := fun _ => 0
    lifetime_fn := ⟨[(500, 1), (800, 5)], some 25⟩
    mass_fn := ⟨[], some 0.001⟩
    area_fn := ⟨[], some 0.0001⟩
    initial_number_fn := fun alt =>
      if 500 ≤ alt ∧ alt < 800 then 500000 else if 800 ≤ alt ∧ alt < 1200 then 300000
      else if 1200 ≤ alt ∧ alt < 1500 then 100000 else 0
    pmd_success_rate := 0.0, pmd_time := 25, collision_avoidance := false }

/-!
## SEP.py — interaction schema and scenario assembly
-/

/-- The `pyssem` `Interaction` record as constructed in `SEP.py`.
`species_b = none` marks a self-interaction; `products` maps target species
names to altitude-dependent product counts. -/
structure Interaction where
  species_a : String
  species_b : Option String
  interaction_type : String
  probability_fn : ℚ → ℚ → ℚ
  products : List (String × (ℚ → ℚ))

/-- Interaction `interactions[0]`: catastrophic collisions between constellation
satellites. -/
def collision_constellation_self : Interaction :=
  { species_a := "commercial_constellation_sats"
    species_b := some "commercial_constellation_sats"
    interaction_type := "collision"
    probability_fn := fun _ alt => if alt > 400 then 1e-5 else 0.0
    products :=
      [("large_debris", fun alt => if alt < 600 then 100 else 150),
       ("medium_debris", fun alt => if alt < 600 then 500 else 800),
       ("small_debris", fun alt => if alt < 600 then 10000 else 15000)] }

/-- Interaction `interactions[1]`: constellation vs. other commercial satellites. -/
def collision_constellation_other : Interaction :=
  { species_a := "commercial_constellation_sats"
    species_b := some "commercial_other_sats"
    interaction_type := "collision"
    probability_fn := fun _ alt => if alt > 400 then 5e-5 else 0.0
    products :=
      [("large_debris", fun _ => 200), ("medium_debris", fun _ => 1000),
       ("small_debris", fun _ => 20000)] }

/-- Interaction `interactions[2]`: constellation satellites vs. large debris. -/
def collision_constellation_debris : Interaction :=
  { species_a := "commercial_constellation_sats"
    species_b := some "large_debris"
    interaction_type := "collision"
    probability_fn := fun _ alt => if alt > 400 then 1e-4 else 0.0
    products :=
      [("large_debris", fun _ => 50), ("medium_debris", fun _ => 300),
       ("small_debris", fun _ => 5000), ("inactive_commercial_sats", fun _ => 1)] }

/-- Interaction `interactions[3]`: rocket body explosions. -/
def explosion_rocket_bodies : Interaction :=
  { species_a := "rocket_bodies_commercial"
    species_b := none
    interaction_type := "explosion"
    probability_fn := fun _ alt => if alt > 300 then 0.015 else 0.0
    products :=
      [("large_debris", fun _ => 50), ("medium_debris", fun _ => 200),
       ("small_debris", fun _ => 5000)] }

/-- Interaction `interactions[4]`: satellite failures creating inactive satellites. -/
def failure_constellation : Interaction :=
  { species_a := "commercial_constellation_sats"
    species_b := none
    interaction_type := "failure"
    probability_fn := fun _ _ => 0.02
    products := [("inactive_commercial_sats", fun _ => 1)] }

/-- Interaction `interactions[5]`: successful end-of-life disposal. -/
def eol_success_constellation : Interaction :=
  { species_a := "commercial_constellation_sats"
    species_b := none
    interaction_type := "eol_success"
    probability_fn := fun _ _ => 1 / 7 * 0.98
    products := [] }

/-- Interaction `interactions[6]`: failed end-of-life disposal. -/
def eol_failure_constellation : Interaction :=
  { species_a := "commercial_constellation_sats"
    species_b := none
    interaction_type := "eol_failure"
    probability_fn := fun _ _ => 1 / 7 * 0.02
    products := [("inactive_commercial_sats", fun _ => 1)] }

/-- Interaction `interactions[7]`: active debris removal (ADR), a step function of time
starting after 5 years: `10/2000 if t >= 5 else 0`. -/
def adr_removal : Interaction :=
  { species_a := "inactive_commercial_sats"
    species_b := none
    interaction_type := "removal"
    probability_fn := fun t _ => if t ≥ 5 then 10 / 2000 else 0
    products := [] }

/-- The `interactions` list of `SEP.py`. -/
def interactions : List Interaction :=
  [collision_constellation_self, collision_constellation_other,
   collision_constellation_debris, explosion_rocket_bodies,
   failure_constellation, eol_success_constellation,
   eol_failure_constellation, adr_removal]

/-!
## SEP.py — scenario assembly and variant derivation

Python variables hold references to heap objects.  To capture the aliasing
semantics of `sep5h_species = sep5_species.copy()` followed by in-place field
assignments, the twelve `Species` objects live in an explicit heap (a list
addressed by position) and each dictionary maps a species name to a heap
address.  `dict.copy()` copies only the name → address container, so both
dictionaries keep pointing at the same heap cells. -/

/-- The heap of `Species` objects constructed at module load, in construction
order. -/
def sep5_heap : List Species :=
  [commercial_constellation, commercial_other, gov_civil, military,
   small_satellites, rocket_bodies_commercial, rocket_bodies_gov,
   inactive_commercial, inactive_government, large_debris, medium_debris,
   small_debris]

/-- Dictionary `sep5_species`: the base (medium-sustainability) name → Species mapping,
as a name → heap-address dictionary. -/
def sep5_species : List (String × Nat) :=
  [("commercial_constellation_sats", 0), ("commercial_other_sats", 1),
   ("gov_civil_sats", 2), ("military_sats", 3), ("small_sats", 4),
   ("rocket_bodies_commercial", 5), ("rocket_bodies_gov", 6),
   ("inactive_commercial_sats", 7), ("inactive_government_sats", 8),
   ("large_debris", 9), ("medium_debris", 10), ("small_debris", 11)]

/-- Python `dict.copy()`: a shallow copy — a fresh container with the same
name → address bindings. -/
def dictShallowCopy (d : List (String × Nat)) : List (String × Nat) := d

/-- Source: `sep5h_species = sep5_species.copy()`. -/
def sep5h_species : List (String × Nat) := dictShallowCopy sep5_species

/-- In-place attribute assignment `d[nm].field = v`: look up the heap address
bound to `nm` and overwrite that heap cell with the updated record.  (A
missing name would raise `KeyError` in Python; every name used in `SEP.py`
is present.) -/
def setSpeciesField (h : List Species) (d : List (String × Nat)) (nm : String)
    (f : Species → Species) : List Species :=
  match dget nm d with
  | none => h
  | some a =>
    match h.get? a with
    | none => h
    | some s => h.set a (f s)

/-- Read `d[nm]` through a heap. -/
def lookupSpecies (h : List Species) (d : List (String × Nat)) (nm : String) :
    Option Species :=
  (dget nm d).bind (fun a => h.get? a)

/-- The heap after the six field overrides of the high-sustainability variant
derivation (`SEP.py` lines 386-391), performed through `sep5h_species`. -/
def sep5h_heap : List Species :=
  let h1 := setSpeciesField sep5_heap sep5h_species "commercial_constellation_sats"
    (fun s => { s with pmd_success_rate := 0.99 })
  let h2 := setSpeciesField h1 sep5h_species "commercial_other_sats"
    (fun s => { s with pmd_success_rate := 0.99 })
  let h3 := setSpeciesField h2 sep5h_species "gov_civil_sats"
    (fun s => { s with pmd_success_rate := 0.95 })
  let h4 := setSpeciesField h3 sep5h_species "military_sats"
    (fun s => { s with pmd_success_rate := 0.95 })
  let h5 := setSpeciesField h4 sep5h_species "rocket_bodies_commercial"
    (fun s => { s with explosion_probability := some 0.01 })
  setSpeciesField h5 sep5h_species "rocket_bodies_commercial"
    (fun s => { s with pmd_success_rate := 0.98 })

/-- Source: `sep5h_interactions = interactions.copy()` followed by appending the
high-sustainability ADR rule (15 objects per year). -/
def sep5h_interactions : List Interaction :=
  interactions ++
    [{ species_a := "inactive_commercial_sats"
       species_b := none
       interaction_type := "removal"
       probability_fn := fun t _ => if t ≥ 5 then 15 / 2000 else 0
       products := [] }]

/-!
## reformat_density.py — period labels and the density table build

`main` turns the decimal-year ordinate array into `"YYYY-MM"` labels
(`year = np.floor(frac)`, `mo = np.round((frac - year) * 12) + 1`, formatted
`f"{year:4.0f}-{mo:02.0f}"`), turns the integer altitude ordinates into
strings, and builds the nested period → altitude → density dictionary
(`dict.fromkeys` then per-row assignment, i.e. later rows with the same label
overwrite earlier ones).  `np.round` rounds half to even.
-/

/-- Python `np.round` on a scalar: round half to even. -/
def roundHalfEven (q : ℚ) : ℤ :=
  let f := q.floor
  let r := q - (f : ℚ)
  if r < 1 / 2 then f
  else if r > 1 / 2 then f + 1
  else if f % 2 = 0 then f else f + 1

/-- Python `f"{x:4.0f}"` on an integral value: decimal digits, right-aligned
to minimum width 4 with spaces. -/
def fmtWidth4 (n : ℤ) : String :=
  let s := toString n
  if s.length < 4 then String.mk (List.replicate (4 - s.length) ' ') ++ s else s

/-- Python `f"{x:02.0f}"` on an integral value: decimal digits, zero-padded
to minimum width 2. -/
def fmtZeroPad2 (n : ℤ) : String :=
  let s := toString n
  if s.length < 2 then "0" ++ s else s

/-- The `"YYYY-MM"` period label computed per decimal year in
`reformat_density.main` (lines 44-47).  Note the month is
`round(fraction * 12) + 1` with no rollover handling: a fraction that rounds
to 12 yields month 13. -/
def periodLabel (frac : ℚ) : String :=
  let year : ℤ := frac.floor
  let mo : ℤ := roundHalfEven ((frac - (year : ℚ)) * 12) + 1
  fmtWidth4 year ++ "-" ++ fmtZeroPad2 mo

/-- Source: `data[10].astype(str)` on the integer altitude ordinates. -/
def altLabel (a : ℤ) : String := toString a

/-- Source: `dict(zip(str_alts, sspdata[i, :]))`: the inner altitude-label →
density dictionary for one period row. -/
def buildAltDict (strAlts : List String) (row : List ℚ) : List (String × ℚ) :=
  (strAlts.zip row).foldl (fun d p => dinsert p.1 p.2 d) []

/-- The nested period → altitude → density table built by
`reformat_density.main` (lines 49-53) from the parallel year/altitude/density
arrays.  Successive assignments `tojson[str_year] = ...` make the last row
with a given period label win. -/
def buildDensityTable (years : List ℚ) (alts : List ℤ) (dens : List (List ℚ)) :
    List (String × List (String × ℚ)) :=
  (years.zip dens).foldl
    (fun d p => dinsert (periodLabel p.1) (buildAltDict (alts.map altLabel) p.2) d) []

/-!
## report_plots.py — output series extraction and aggregation
-/

/-- Python `name.startswith(pat)`. -/
def pyStartswith (s pat : String) : Bool := pat.data.isPrefixOf s.data

/-- The debris selector of `extract_species_data` (lines 53-57):
`name.startswith("N") or name.startswith("N_") or name == "N"`. -/
def debrisMatch (nm : String) : Bool :=
  pyStartswith nm "N" || pyStartswith nm "N_" || nm == "N"

/-- Source: `patterns = [f"{p}_", p] if p in ["S", "B"] else [p]` (line 59). -/
def patternsFor (p : String) : List String :=
  if p == "S" || p == "B" then [p ++ "_", p] else [p]

/-- Whether a species name matches the given category selector, exactly as the
two filters of `extract_species_data` decide it. -/
def categoryMatches (p nm : String) : Bool :=
  if p == "debris" then debrisMatch nm
  else (patternsFor p).any (fun pat => pyStartswith nm pat)

/-- The slice of the pickled scenario-properties object that
`extract_species_data` and `plot_species_heatmap` read: the species-name
list, the shell count, and the flattened output matrix `output.y` (rows =
`species_index * n_shells + shell_index`, columns = output timesteps). -/
structure ScenarioProps where
  species_names : List String
  n_shells : Nat
  y : List (List ℚ)

/-- The matched `(index, name)` pairs, in species order: the enumerate/filter
of `extract_species_data` (the source computes the index list first and then
re-reads `species_names[i]`; the pairs carry both at once). -/
def matchedSpecies (p : ScenarioProps) (pre : String) : List (Nat × String) :=
  p.species_names.enum.filter (fun x => categoryMatches pre x.2)

/-- Source: `output.y[start_idx:end_idx, :]` with `start_idx = idx * n_shells`:
Python slicing of the row list. -/
def speciesSlice (p : ScenarioProps) (idx : Nat) : List (List ℚ) :=
  (p.y.drop (idx * p.n_shells)).take p.n_shells

/-- Function `extract_species_data(scenario_props, pre)` (lines 47-75): the matched
index list, the matched name list, and the name → (n_shells × n_timesteps)
matrix dictionary. -/
def extract_species_data (p : ScenarioProps) (pre : String) :
    List Nat × List String × List (String × List (List ℚ)) :=
  let species_indices := (matchedSpecies p pre).map Prod.fst
  let species_names := (matchedSpecies p pre).map Prod.snd
  let species_data := (species_indices.zip species_names).foldl
    (fun d x => dinsert x.2 (speciesSlice p x.1) d) []
  (species_indices, species_names, species_data)

/-- Source: `np.zeros((n_shells, n_times))`. -/
def zerosMat (n m : Nat) : List (List ℚ) :=
  List.replicate n (List.replicate m (0 : ℚ))

/-- Element-wise `total_objects += species_data_array`. -/
def matAdd (A B : List (List ℚ)) : List (List ℚ) :=
  A.zipWith (fun r1 r2 => r1.zipWith (· + ·) r2) B

/-- The aggregation loop of `plot_species_heatmap` (lines 205-210): sum all
matched species' matrices element-wise onto a zero matrix. -/
def sumSpeciesData (nsh nt : Nat) (data : List (String × List (List ℚ))) :
    List (List ℚ) :=
  data.foldl (fun acc kv => matAdd acc kv.2) (zerosMat nsh nt)

/-!
## report_plots.py — time-dependent density grid

`calculate_time_dependent_density` (lines 78-122) dispatches on the
configured density model.  Density values are floats; the grid cells are
modelled symbolically by `DVal`, distinguishing a value produced by the
configured model, the fallback profile `np.exp(-altitude / 100)` (a
transcendental whose numeric value the claims never need), and the untouched
`np.zeros` initialization.  A model evaluation (a call into external `pyssem`
code that may raise) is an `Except`-valued function of the timestep and the
altitude list, returning one grid column. -/

/-- A density-grid cell: a model-produced value, the fallback profile
`exp(-alt/100)` at a given altitude, or the zero initialization. -/
inductive DVal where
  | model (v : ℚ)
  | fallbackExp (alt : ℚ)
  | zero
  deriving DecidableEq

/-- The density model attribute: its `__name__` and its evaluation (which may
raise). -/
structure DensityModelRef where
  modelName : String
  evalAt : ℚ → List ℚ → Except String (List ℚ)

/-- The fields of the scenario-properties object that
`calculate_time_dependent_density` reads: shell altitudes `R0_km`, output
timesteps `output.t`, the optional `density_model` attribute, and whether a
`density_data` attribute is present. -/
structure DensityScenarioProps where
  R0_km : List ℚ
  t : List ℚ
  density_model : Option DensityModelRef
  has_density_data : Bool

/-- Assemble the `(n_altitudes × n_timesteps)` grid from per-timestep columns
(`density_values[:, i] = column`). -/
def gridFromCols (nAlts : Nat) (cols : List (List ℚ)) : List (List DVal) :=
  (List.range nAlts).map (fun a => cols.map (fun col => DVal.model (col.getD a 0)))

/-- The grid produced by the fallback loop: every cell of row `a` is
`np.exp(-altitudes[a] / 100)`. -/
def fallbackGrid (p : DensityScenarioProps) : List (List DVal) :=
  p.R0_km.map (fun alt => List.replicate p.t.length (DVal.fallbackExp alt))

/-- The `np.zeros((len(altitudes), len(timestamps)))` initialization, left in
place when no branch fills the grid. -/
def zerosGridD (nAlts nT : Nat) : List (List DVal) :=
  List.replicate nAlts (List.replicate nT DVal.zero)

/-- Total cell access used to state grid properties. -/
def gridCell (g : List (List DVal)) (a i : Nat) : DVal :=
  (g.getD a []).getD i DVal.zero

/-- Function `calculate_time_dependent_density` (lines 78-122).  Returns the grid and
the printed log lines, or propagates an uncaught error:

* static branch (`__name__ == "static_exp_dens_func"`): per-timestep
  evaluation with **no** `try`/`except` — an error propagates;
* JB2008 branch (`density_data` present): evaluation inside `try`; on error,
  print the message and overwrite the whole grid with the fallback profile;
* a `density_model` that is neither static nor accompanied by `density_data`
  falls through both branches: the zero initialization is returned silently;
* no `density_model` attribute: fallback profile, with a printed notice. -/
def calculate_time_dependent_density (p : DensityScenarioProps) :
    Except String (List (List DVal) × List String) :=
  match p.density_model with
  | some m =>
    if m.modelName = "static_exp_dens_func" then
      match p.t.mapM (fun ti => m.evalAt ti p.R0_km) with
      | Except.ok cols =>
        Except.ok (gridFromCols p.R0_km.length cols, ["Using Static Density Model"])
      | Except.error e => Except.error e
    else if p.has_density_data then
      match p.t.mapM (fun ti => m.evalAt ti p.R0_km) with
      | Except.ok cols =>
        Except.ok (gridFromCols p.R0_km.length cols,
          ["Using JB2008 Time-Dependent Density Model"])
      | Except.error e =>
        Except.ok (fallbackGrid p,
          ["Using JB2008 Time-Dependent Density Model",
           "Error calculating time-dependent density: " ++ e])
    else
      Except.ok (zerosGridD p.R0_km.length p.t.length, [])
  | none =>
    Except.ok (fallbackGrid p, ["Falling back to simplified density calculation"])

/-!
## Test fixtures

Concrete inputs used by the counterexamples and witnesses below.
-/

/-- The synthetic `SimulationOutput` of the spec's extraction test:
`n_shells = 3`, 2 timesteps, species `["Active_sat", "N_500_1cm"]`, with a
6-row flattened matrix of distinct entries. -/
def synth_props : ScenarioProps :=
  { species_names := ["Active_sat", "N_500_1cm"]
    n_shells := 3
    y := [[1, 2], [3, 4], [5, 6], [7, 8], [9, 10], [11, 12]] }

/-- A scenario whose `density_model.__name__` is `"static_exp_dens_func"`
and whose evaluation raises. -/
def c4_static_failing_props : DensityScenarioProps :=
  { R0_km := [400], t := [0]
    density_model := some
      { modelName := "static_exp_dens_func", evalAt := fun _ _ => Except.error "boom" }
    has_density_data := false }

/-- A scenario on the JB2008 time-dependent path (`density_data` present)
whose evaluation raises. -/
def c4_jb_failing_props : DensityScenarioProps :=
  { R0_km := [400, 450], t := [0, 1]
    density_model := some
      { modelName := "JB2008_dens", evalAt := fun _ _ => Except.error "lookup failed" }
    has_density_data := true }

/-- A scenario with no `density_model` attribute. -/
def c4_no_model_props : DensityScenarioProps :=
  { R0_km := [500], t := [0], density_model := none, has_density_data := false }

/-- Two decimal years that receive the same period label "2020-01":
2020.0 and 2020.04 (whose fraction times 12 is 0.48, rounding to month 1). -/
def c7_collision_years : List ℚ := [2020, 2020 + 1 / 25]

/-- The table built from the colliding years, one altitude (400 km) and the
density rows `[1]` and `[2]`. -/
def c7_collision_table : List (String × List (String × ℚ)) :=
  buildDensityTable c7_collision_years [400] [[1], [2]]

/-- A well-behaved monthly dataset: two distinct period labels, two
altitudes. -/
def c7_small_years : List ℚ := [2020, 2020 + 1 / 12]

/-- The table built from the well-behaved dataset. -/
def c7_small_table : List (String × List (String × ℚ)) :=
  buildDensityTable c7_small_years [400, 450] [[1, 2], [3, 4]]

/-!
## Helper lemmas
-/

theorem dget_dinsert_self {α : Type} (k : String) (v : α) (d : List (String × α)) :
    dget k (dinsert k v d) = some v := by
  induction d with
  | nil => simp [dinsert, dget]
  | cons p d ih =>
    obtain ⟨k2, v2⟩ := p
    by_cases h : k2 = k
    · simp [dinsert, dget, h]
    · simp [dinsert, dget, h, ih]

theorem dget_dinsert_ne {α : Type} {k2 k : String} (v : α) (d : List (String × α))
    (h : k2 ≠ k) : dget k (dinsert k2 v d) = dget k d := by
  induction d with
  | nil => simp [dinsert, dget, h]
  | cons p d ih =>
    obtain ⟨k3, v3⟩ := p
    by_cases h3 : k3 = k2
    · subst h3
      simp [dinsert, dget, h]
    · by_cases h4 : k3 = k
      · simp [dinsert, dget, h3, h4, Ne.symm h]
      · simp [dinsert, dget, h3, h4, ih]

/-- Folding a sequence of insertions whose keys all differ from `k` leaves the
binding of `k` unchanged. -/
theorem dget_foldl_dinsert_not_mem {α β : Type} (key : α → String) (val : α → β) (k : String) :
    ∀ (l : List α) (d : List (String × β)), (∀ a ∈ l, key a ≠ k) →
      dget k (l.foldl (fun acc a => dinsert (key a) (val a) acc) d) = dget k d := by
  intro l
  induction l with
  | nil => intro d _; rfl
  | cons a l ih =>
    intro d h
    simp only [List.foldl_cons]
    rw [ih _ (fun b hb => h b (List.mem_cons_of_mem _ hb)),
      dget_dinsert_ne _ _ (h a (List.mem_cons_self a l))]

/-- Folding a sequence of insertions with pairwise-distinct keys binds each
key to its associated value, regardless of the initial dictionary. -/
theorem dget_foldl_dinsert {α β : Type} (key : α → String) (val : α → β) :
    ∀ (l : List α) (x : α), x ∈ l → (l.map key).Nodup →
      ∀ d, dget (key x) (l.foldl (fun acc a => dinsert (key a) (val a) acc) d) = some (val x) := by
  intro l
  induction l with
  | nil => intro x hx; exact absurd hx (List.not_mem_nil x)
  | cons a l ih =>
    intro x hx hnd d
    simp only [List.map_cons, List.nodup_cons] at hnd
    simp only [List.foldl_cons]
    rcases List.mem_cons.mp hx with rfl | hx2
    · have hnin : ∀ b ∈ l, key b ≠ key x := by
        intro b hb he
        exact hnd.1 (he ▸ List.mem_map_of_mem key hb)
      rw [dget_foldl_dinsert_not_mem key val (key x) l _ hnin, dget_dinsert_self]
    · exact ih x hx2 hnd.2 _

/-- A cascade with a default branch returns a defined value at every
altitude. -/
theorem Cascade.eval_isSome (c : Cascade) (alt : ℚ) (h : c.dflt.isSome) :
    (c.eval alt).isSome := by
  unfold Cascade.eval
  cases hf : c.branches.find? (fun b => decide (alt < b.1)) with
  | none => simpa using h
  | some b => simp

/-- Projecting the matched names out of the enumerated filter gives a plain
filter of the name list. -/
theorem enumFrom_filter_map_snd {α : Type} (f : α → Bool) :
    ∀ (l : List α) (k : Nat),
      ((List.enumFrom k l).filter (fun x => f x.2)).map Prod.snd = l.filter f := by
  intro l
  induction l with
  | nil => intro k; rfl
  | cons a l ih =>
    intro k
    cases hfa : f a <;>
      simp [List.enumFrom, List.filter_cons, hfa, ih (k + 1)]

/-- The second component of an enumerated-list member is a member of the
underlying list. -/
theorem snd_mem_of_mem_enumFrom {α : Type} :
    ∀ (l : List α) (k : Nat) (x : Nat × α), x ∈ List.enumFrom k l → x.2 ∈ l := by
  intro l
  induction l with
  | nil => intro k x hx; exact absurd hx (List.not_mem_nil x)
  | cons a l ih =>
    intro k x hx
    rcases List.mem_cons.mp hx with rfl | hx2
    · exact List.mem_cons_self a l
    · exact List.mem_cons_of_mem a (ih (k + 1) x hx2)

theorem getD_take {α : Type} (d : α) :
    ∀ (l : List α) (n r : Nat), r < n → (l.take n).getD r d = l.getD r d := by
  intro l
  induction l with
  | nil => intro n r _; simp
  | cons a l ih =>
    intro n r h
    cases n with
    | zero => omega
    | succ n =>
      cases r with
      | zero => simp
      | succ r => simpa using ih n r (by omega)

theorem getD_drop {α : Type} (d : α) :
    ∀ (l : List α) (s r : Nat), (l.drop s).getD r d = l.getD (s + r) d := by
  intro l
  induction l with
  | nil => intro s r; simp
  | cons a l ih =>
    intro s r
    cases s with
    | zero => simp
    | succ s =>
      simp [Nat.succ_add, ih s r]

/-!
## Claims
-/

/-- C1: the claim states that deriving the high-sustainability mapping
`sep5h_species` from `sep5_species` and overriding fields leaves the base
mapping's Species records unchanged.  The code violates it: `dict.copy()` is
shallow, so the in-place field assignments reach the very objects the base
mapping points at.  After the derivation, reading
`sep5_species["commercial_constellation_sats"].pmd_success_rate` through the
mutated heap gives the overridden 0.99, not the original 0.98, and the base
mapping's `rocket_bodies_commercial` likewise carries the overridden
explosion probability 0.01. -/
theorem sep5h_override_mutates_base :
    (lookupSpecies sep5_heap sep5_species "commercial_constellation_sats").map
        Species.pmd_success_rate = some 0.98 ∧
    (lookupSpecies sep5h_heap sep5_species "commercial_constellation_sats").map
        Species.pmd_success_rate = some 0.99 ∧
    (lookupSpecies sep5h_heap sep5_species "rocket_bodies_commercial").map
        Species.explosion_probability = some (some 0.01) := by
  refine ⟨?_, ?_, ?_⟩ <;> rfl

/-- C2: the claim states that a decimal year whose fraction rounds to month
13 is normalized to January of the next year.  The code performs no such
normalization: `periodLabel` applied to 2020.999 emits the invalid label
"2020-13" rather than "2021-01". -/
theorem periodLabel_month13_unnormalized :
    periodLabel (2020 + 999 / 1000) = "2020-13" ∧ "2020-13" ≠ "2021-01" := by
  exact ⟨by with_unfolding_all decide, by decide⟩

/-- C8: every Species in the scenario has lifetime/mass/area cascades with a
default branch, so each property function returns a defined value at every
altitude (below the lowest threshold, between thresholds, and above the
highest threshold alike). -/
theorem species_property_functions_total :
    ∀ s ∈ sep5_heap, ∀ alt : ℚ,
      (s.lifetime_fn.eval alt).isSome ∧ (s.mass_fn.eval alt).isSome ∧
        (s.area_fn.eval alt).isSome := by
  intro s hs alt
  simp only [sep5_heap, List.mem_cons, List.not_mem_nil, or_false] at hs
  rcases hs with rfl | rfl | rfl | rfl | rfl | rfl | rfl | rfl | rfl | rfl | rfl | rfl <;>
    exact ⟨Cascade.eval_isSome _ _ rfl, Cascade.eval_isSome _ _ rfl,
      Cascade.eval_isSome _ _ rfl⟩

/-- Witness for C8 at a concrete species and an altitude above the highest
threshold. -/
theorem species_property_functions_total_witness :
    commercial_constellation ∈ sep5_heap ∧
      ((commercial_constellation.lifetime_fn.eval 5000).isSome ∧
        (commercial_constellation.mass_fn.eval 5000).isSome ∧
        (commercial_constellation.area_fn.eval 5000).isSome) :=
  ⟨by simp [sep5_heap],
   species_property_functions_total commercial_constellation (by simp [sep5_heap]) 5000⟩

/-- C9: the ADR removal interaction's probability function is 0 for `t < 5`
and the configured constant `10/2000` for `t >= 5`, with exact equality at
`t == 5` returning the post-threshold value, for every altitude. -/
theorem removal_probability_step :
    ∀ t alt : ℚ, (t < 5 → adr_removal.probability_fn t alt = 0) ∧
      (5 ≤ t → adr_removal.probability_fn t alt = 10 / 2000) ∧
      adr_removal.probability_fn 5 alt = 10 / 2000 := by
  intro t alt
  refine ⟨fun h => ?_, fun h => ?_, ?_⟩
  · simp [adr_removal, not_le.mpr h]
  · simp [adr_removal, h]
  · norm_num [adr_removal]

/-- Witness for C9 at t = 3, 7, 5 and altitude 400. -/
theorem removal_probability_step_witness :
    adr_removal.probability_fn 3 400 = 0 ∧
      adr_removal.probability_fn 7 400 = 10 / 2000 ∧
      adr_removal.probability_fn 5 400 = 10 / 2000 :=
  ⟨(removal_probability_step 3 400).1 (by norm_num),
   (removal_probability_step 7 400).2.1 (by norm_num),
   (removal_probability_step 5 400).2.2⟩

/-- C6: when no species name matches the category selector, extraction
returns empty results (empty index list, empty name list, empty data
mapping) rather than raising; and the matching is case-sensitive: lowercase
variants of matching names do not match. -/
theorem extract_no_match_empty_and_case_sensitive :
    (∀ (p : ScenarioProps) (pre : String),
        (∀ nm ∈ p.species_names, categoryMatches pre nm = false) →
          extract_species_data p pre = ([], [], [])) ∧
      categoryMatches "debris" "n_500_1cm" = false ∧
      categoryMatches "debris" "N_500_1cm" = true ∧
      categoryMatches "S" "s_650kg" = false ∧
      categoryMatches "S" "S_650kg" = true := by
  refine ⟨?_, by decide, by decide, by decide, by decide⟩
  intro p pre h
  have hml : matchedSpecies p pre = [] := by
    refine List.filter_eq_nil_iff.mpr ?_
    intro x hx
    simp [h x.2 (snd_mem_of_mem_enumFrom _ 0 x hx)]
  simp [extract_species_data, hml]

/-- Witness for C6 on a concrete scenario where nothing matches the debris
selector. -/
theorem extract_no_match_empty_witness :
    extract_species_data ⟨["X_sat"], 3, [[1], [2], [3]]⟩ "debris" = ([], [], []) :=
  extract_no_match_empty_and_case_sensitive.1 ⟨["X_sat"], 3, [[1], [2], [3]]⟩
    "debris" (by decide)

/-- C10: the debris selector matches exactly the names whose first character
is `N` — the three source clauses collapse to `startswith("N")`, the matched
name list is a plain first-character filter of the species names, and a
non-debris species named "NewSats" is matched as debris. -/
theorem debris_category_matches_leading_N :
    (∀ nm : String, debrisMatch nm = pyStartswith nm "N") ∧
      (∀ nm : String, pyStartswith nm "N" = (nm.data.head? == some 'N')) ∧
      (∀ p : ScenarioProps,
        (extract_species_data p "debris").2.1 =
          p.species_names.filter (fun nm => pyStartswith nm "N")) ∧
      debrisMatch "NewSats" = true := by
  have h1 : ∀ nm : String, debrisMatch nm = pyStartswith nm "N" := by
    intro nm
    obtain ⟨l⟩ := nm
    cases l with
    | nil => rfl
    | cons c cs =>
      by_cases hc : c = 'N'
      · subst hc
        simp [debrisMatch, pyStartswith, List.isPrefixOf]
      · have hb : ('N' == c) = false := beq_eq_false_iff_ne.mpr (Ne.symm hc)
        have hs : (String.mk (c :: cs) == ("N" : String)) = false := by
          refine beq_eq_false_iff_ne.mpr ?_
          intro he
          have hdata : c :: cs = ("N" : String).data := congrArg String.data he
          rw [show ("N" : String).data = ['N'] from rfl] at hdata
          injection hdata with hh _
          exact hc hh
        simp [debrisMatch, pyStartswith, List.isPrefixOf, hb, hs]
  refine ⟨h1, ?_, ?_, by decide⟩
  · intro nm
    obtain ⟨l⟩ := nm
    cases l with
    | nil => rfl
    | cons c cs =>
      by_cases hc : c = 'N'
      · subst hc
        simp [pyStartswith, List.isPrefixOf]
      · have hb : ('N' == c) = false := beq_eq_false_iff_ne.mpr (Ne.symm hc)
        have hb2 : (some c == some 'N') = false :=
          beq_eq_false_iff_ne.mpr (by simpa using hc)
        simp [pyStartswith, List.isPrefixOf, hb, hb2]
  · intro p
    have h2 : ((p.species_names.enum).filter (fun x => categoryMatches "debris" x.2)) =
        ((p.species_names.enum).filter (fun x => pyStartswith x.2 "N")) := by
      refine List.filter_congr ?_
      intro x _
      simp [categoryMatches, h1 x.2]
    show ((p.species_names.enum).filter (fun x => categoryMatches "debris" x.2)).map
      Prod.snd = _
    rw [h2]
    exact enumFrom_filter_map_snd (fun nm => pyStartswith nm "N") p.species_names 0

/-- C5: each matched species at position `idx` in the species-name list is
bound, in the extracted data dictionary, to the matrix formed by rows
`[idx * n_shells, idx * n_shells + n_shells)` of the flattened output, all
columns.  (The name-nodup hypothesis reflects the Species-name uniqueness
invariant; with duplicate names the Python dict would keep only the last.) -/
theorem extract_species_matrix_rows (p : ScenarioProps) (pre : String) (idx : Nat)
    (nm : String) (hmem : (idx, nm) ∈ matchedSpecies p pre)
    (hnd : ((matchedSpecies p pre).map Prod.snd).Nodup) :
    dget nm (extract_species_data p pre).2.2 = some (speciesSlice p idx) ∧
      ∀ r, r < p.n_shells →
        (speciesSlice p idx).getD r [] = p.y.getD (idx * p.n_shells + r) [] := by
  constructor
  · have hzip : ((matchedSpecies p pre).map Prod.fst).zip
        ((matchedSpecies p pre).map Prod.snd) = matchedSpecies p pre := by
      rw [List.zip_map']
      simp
    show dget nm ((((matchedSpecies p pre).map Prod.fst).zip
        ((matchedSpecies p pre).map Prod.snd)).foldl
        (fun d x => dinsert x.2 (speciesSlice p x.1) d) []) = _
    rw [hzip]
    exact dget_foldl_dinsert (fun x => x.2) (fun x => speciesSlice p x.1)
      (matchedSpecies p pre) (idx, nm) hmem hnd []
  · intro r hr
    show ((p.y.drop (idx * p.n_shells)).take p.n_shells).getD r [] = _
    rw [getD_take _ _ _ _ hr, getD_drop]

/-- Witness for C5 on the synthetic scenario: species "N_500_1cm" at index 1
with `n_shells = 3` is bound to rows 3..5. -/
theorem extract_species_matrix_rows_witness :
    ((1, "N_500_1cm") ∈ matchedSpecies synth_props "debris") ∧
      dget "N_500_1cm" (extract_species_data synth_props "debris").2.2 =
        some (speciesSlice synth_props 1) :=
  ⟨by decide,
   (extract_species_matrix_rows synth_props "debris" 1 "N_500_1cm" (by decide)
      (by decide)).1⟩

/-- C3 counterexample: on the spec's synthetic scenario, extracting category
"S" does **not** return the `Active_sat` matrix — `"Active_sat"` starts with
`A`, not with `S` or `S_`, so the extraction comes back empty. -/
theorem extract_S_returns_empty_on_Active_sat :
    extract_species_data synth_props "S" = ([], [], []) ∧
      (([], [], []) : List Nat × List String × List (String × List (List ℚ))) ≠
        ([0], ["Active_sat"], [("Active_sat", speciesSlice synth_props 0)]) := by
  exact ⟨by decide, by decide⟩

/-- C3 (amended): on the synthetic scenario, extracting "debris" returns
exactly the `N_500_1cm` 3×2 matrix (rows 3..5 of the flattened output);
extracting "S" returns empty results, since `"Active_sat"` does not start
with `"S"`; and aggregating two debris matrices sums them element-wise. -/
theorem synthetic_extraction_amended :
    extract_species_data synth_props "debris" =
        ([1], ["N_500_1cm"], [("N_500_1cm", [[7, 8], [9, 10], [11, 12]])]) ∧
      extract_species_data synth_props "S" = ([], [], []) ∧
      sumSpeciesData 3 2
          [("N_500_1cm", [[7, 8], [9, 10], [11, 12]]),
           ("N_1cm", [[1, 1], [1, 1], [1, 1]])] =
        [[8, 9], [10, 11], [12, 13]] := by
  refine ⟨?_, ?_, ?_⟩ <;> with_unfolding_all decide

/-- C7 counterexample: the label encoding is not injective, so the universal
round-trip fails.  2020.0 and 2020.04 both receive the period label
"2020-01"; building the table from rows `[1]` and `[2]` and looking up the
labels of the pair (period index 0, altitude 400) returns the *second* row's
value 2, not the original value `dens[0][0] = 1`. -/
theorem density_table_label_collision :
    periodLabel (c7_collision_years.getD 0 0) = "2020-01" ∧
      periodLabel (c7_collision_years.getD 1 0) = "2020-01" ∧
      (dget "2020-01" c7_collision_table).bind (fun d2 => dget "400" d2) =
        some 2 ∧
      (2 : ℚ) ≠ 1 := by
  exact ⟨by with_unfolding_all decide, by with_unfolding_all decide,
    by with_unfolding_all decide, by norm_num⟩

/-- C7 (amended): provided the derived period labels are pairwise distinct
and the altitude labels are pairwise distinct — as holds for the intended
monthly-spaced dataset — building the table and looking up the labels of any
(period, altitude) pair present in the ordinate arrays returns the original
density value unchanged (the value is stored as-is; the label encoding loses
no precision in the stored value). -/
theorem density_table_roundtrip_distinct_labels
    (years : List ℚ) (alts : List ℤ) (dens : List (List ℚ)) (i j : Nat)
    (hi : i < years.length) (hlen : dens.length = years.length)
    (hj : j < alts.length)
    (hrow : ∀ row ∈ dens, row.length = alts.length)
    (hnd1 : (years.map periodLabel).Nodup)
    (hnd2 : (alts.map altLabel).Nodup) :
    (dget (periodLabel (years.getD i 0)) (buildDensityTable years alts dens)).bind
        (fun d2 => dget (altLabel (alts.getD j 0)) d2) =
      some ((dens.getD i []).getD j 0) := by
  have hid : i < dens.length := by omega
  have hiz : i < (years.zip dens).length := by
    rw [List.length_zip]
    omega
  have hz1 : (years.zip dens)[i] = (years[i], dens[i]) := List.getElem_zip ..
  have hmem : (years[i], dens[i]) ∈ years.zip dens := by
    rw [← hz1]
    exact List.getElem_mem hiz
  have hnd1' : ((years.zip dens).map (fun q : ℚ × List ℚ => periodLabel q.1)).Nodup := by
    have h1 : (years.zip dens).map (fun q : ℚ × List ℚ => periodLabel q.1) =
        ((years.zip dens).map Prod.fst).map periodLabel := by
      rw [List.map_map]
      rfl
    rw [h1, List.map_fst_zip years dens (by omega)]
    exact hnd1
  have houter := dget_foldl_dinsert (fun q : ℚ × List ℚ => periodLabel q.1)
    (fun q => buildAltDict (alts.map altLabel) q.2) (years.zip dens)
    (years[i], dens[i]) hmem hnd1' []
  have houter' : dget (periodLabel years[i]) (buildDensityTable years alts dens) =
      some (buildAltDict (alts.map altLabel) (dens[i])) := houter
  have hrowlen : (dens[i]).length = alts.length := hrow _ (List.getElem_mem hid)
  have hjr : j < (dens[i]).length := by omega
  have hjz : j < ((alts.map altLabel).zip (dens[i])).length := by
    rw [List.length_zip, List.length_map, hrowlen, Nat.min_self]
    exact hj
  have hjm : j < (alts.map altLabel).length := by
    rw [List.length_map]
    exact hj
  have hz2 : ((alts.map altLabel).zip (dens[i]))[j] =
      ((alts.map altLabel)[j], (dens[i])[j]) := List.getElem_zip ..
  have hmap : (alts.map altLabel)[j] = altLabel alts[j] := List.getElem_map ..
  have hmem2 : (altLabel alts[j], (dens[i])[j]) ∈ (alts.map altLabel).zip (dens[i]) := by
    rw [← hmap, ← hz2]
    exact List.getElem_mem hjz
  have hnd2' : (((alts.map altLabel).zip (dens[i])).map
      (fun q : String × ℚ => q.1)).Nodup := by
    have h2 : ((alts.map altLabel).zip (dens[i])).map (fun q : String × ℚ => q.1) =
        alts.map altLabel :=
      List.map_fst_zip (alts.map altLabel) (dens[i]) (by rw [List.length_map, hrowlen])
    rw [h2]
    exact hnd2
  have hinner := dget_foldl_dinsert (fun q : String × ℚ => q.1) (fun q => q.2)
    ((alts.map altLabel).zip (dens[i])) (altLabel alts[j], (dens[i])[j]) hmem2 hnd2' []
  have hinner' : dget (altLabel alts[j]) (buildAltDict (alts.map altLabel) (dens[i])) =
      some ((dens[i])[j]) := hinner
  rw [List.getD_eq_getElem years 0 hi, List.getD_eq_getElem dens [] hid,
    List.getD_eq_getElem alts 0 hj, List.getD_eq_getElem (dens[i]) 0 hjr,
    houter']
  simpa using hinner'

/-- Witness for C7 on a well-behaved two-month dataset: looking up the pair
(period index 1, altitude index 0) returns the original value 3. -/
theorem density_table_roundtrip_witness :
    (dget (periodLabel (c7_small_years.getD 1 0)) c7_small_table).bind
        (fun d2 => dget (altLabel ((([400, 450] : List ℤ)).getD 0 0)) d2) =
      some (((([[1, 2], [3, 4]] : List (List ℚ))).getD 1 []).getD 0 0) :=
  density_table_roundtrip_distinct_labels c7_small_years [400, 450]
    [[1, 2], [3, 4]] 1 0 (by decide) (by decide) (by decide) (by decide)
    (by with_unfolding_all decide) (by decide)

/-- C4 counterexample: in the static-density branch the per-timestep
evaluation loop is **not** wrapped in `try`/`except`, so an error raised by
density evaluation propagates out of the computation instead of being caught
and replaced by the fallback profile. -/
theorem static_density_error_propagates :
    calculate_time_dependent_density c4_static_failing_props =
      Except.error "boom" := by
  rfl

/-- C4 (amended): on the JB2008 time-dependent path (a non-static
`density_model` plus `density_data`), an evaluation error is caught locally,
the error message is logged, and the returned grid is the fallback
exponential-decay profile in every (altitude, timestep) cell; and when no
`density_model` attribute is present the fallback grid is returned with an
explicit log line.  (In the static branch the error propagates — see the
counterexample — and a non-static model without `density_data` yields a
silent zero grid.) -/
theorem density_fallback_on_jb_error_or_no_model :
    (∀ (p : DensityScenarioProps) (m : DensityModelRef) (e : String),
        p.density_model = some m → m.modelName ≠ "static_exp_dens_func" →
        p.has_density_data = true →
        p.t.mapM (fun ti => m.evalAt ti p.R0_km) = Except.error e →
        calculate_time_dependent_density p = Except.ok (fallbackGrid p,
          ["Using JB2008 Time-Dependent Density Model",
           "Error calculating time-dependent density: " ++ e])) ∧
      (∀ p : DensityScenarioProps, p.density_model = none →
        calculate_time_dependent_density p = Except.ok (fallbackGrid p,
          ["Falling back to simplified density calculation"])) ∧
      (∀ (p : DensityScenarioProps) (a i : Nat), a < p.R0_km.length → i < p.t.length →
        gridCell (fallbackGrid p) a i = DVal.fallbackExp (p.R0_km.getD a 0)) := by
  refine ⟨?_, ?_, ?_⟩
  · intro p m e hm hname hdata herr
    simp only [calculate_time_dependent_density, hm]
    rw [herr]
    simp [hname, hdata]
  · intro p hm
    simp [calculate_time_dependent_density, hm]
  · intro p a i ha hi
    have ham : a < (p.R0_km.map
        (fun alt => List.replicate p.t.length (DVal.fallbackExp alt))).length := by
      rw [List.length_map]
      exact ha
    have hrep : i < (List.replicate p.t.length (DVal.fallbackExp p.R0_km[a])).length := by
      rw [List.length_replicate]
      exact hi
    unfold gridCell fallbackGrid
    rw [List.getD_eq_getElem _ _ ham, List.getElem_map,
      List.getD_eq_getElem _ _ hrep, List.getElem_replicate,
      List.getD_eq_getElem p.R0_km 0 ha]

/-- Witness for C4: a failing JB2008 evaluation yields the fallback grid and
logs the error; a scenario without a density model yields the fallback grid
with the explicit notice; and a fallback-grid cell holds the exponential
profile at its shell altitude. -/
theorem density_fallback_witness :
    calculate_time_dependent_density c4_jb_failing_props =
        Except.ok (fallbackGrid c4_jb_failing_props,
          ["Using JB2008 Time-Dependent Density Model",
           "Error calculating time-dependent density: " ++ "lookup failed"]) ∧
      calculate_time_dependent_density c4_no_model_props =
        Except.ok (fallbackGrid c4_no_model_props,
          ["Falling back to simplified density calculation"]) ∧
      gridCell (fallbackGrid c4_jb_failing_props) 1 0 =
        DVal.fallbackExp (c4_jb_failing_props.R0_km.getD 1 0) :=
  ⟨density_fallback_on_jb_error_or_no_model.1 c4_jb_failing_props
      { modelName := "JB2008_dens", evalAt := fun _ _ => Except.error "lookup failed" }
      "lookup failed" rfl (by decide) rfl rfl,
   density_fallback_on_jb_error_or_no_model.2.1 c4_no_model_props rfl,
   density_fallback_on_jb_error_or_no_model.2.2 c4_jb_failing_props 1 0
      (by decide) (by decide)⟩

end LeoCap
